import Mathlib

/-
Verification of the conversational SQL assistant (src/app.py).

The development shallowly embeds the pieces of app.py that the claims are
about: the pure helper functions (run_select_query, run_simulated_dml_query,
get_schema) and the multi-stage DML dialogue state machine that lives in
Streamlit session state (current_action, dml_initial_description,
dml_form_inputs, dml_text_details, dml_guidance_message, dml_input_method,
pending_dml_confirmation, messages).

String primitives are modelled over List Char with Python semantics:
pyStrip is str.strip, pyUpper is str.upper, pyContains is the in operator,
pyStartsWith is str.startswith, pyCapitalize is str.capitalize.

The database collaborator is modelled as a function parameter; an extra
Bool (or a call counter) records whether and how often the collaborator
was invoked, so that claims of the form "never calls the database" are
expressible.

The UI is modelled as an event alphabet: a button or widget that app.py
renders in a given stage becomes an event that is a no-op unless that
stage is active, mirroring the st.rerun driven control flow.  Results of
model (LLM) calls are event parameters, since the model is an external
collaborator.
-/

/-- Python str.strip restricted to whitespace, acting on the char list of a string. -/
def pyStrip (s : String) : String :=
  ⟨((s.data.dropWhile Char.isWhitespace).reverse.dropWhile Char.isWhitespace).reverse⟩

/-- Python str.upper (ASCII case map, which is all the source needs). -/
def pyUpper (s : String) : String := ⟨s.data.map Char.toUpper⟩

/-- Boolean prefix test on char lists. -/
def listPre : List Char → List Char → Bool
  | [], _ => true
  | _ :: _, [] => false
  | a :: as, b :: bs => a = b && listPre as bs

/-- Python str.startswith. -/
def pyStartsWith (s pat : String) : Bool := listPre pat.data s.data

/-- Boolean infix test on char lists; the empty pattern is an infix of anything. -/
def hasInfix (pat : List Char) : List Char → Bool
  | [] => pat.isEmpty
  | c :: rest => listPre pat (c :: rest) || hasInfix pat rest

/-- Python substring membership, the expression pat in s. -/
def pyContains (s pat : String) : Bool := hasInfix pat.data s.data

/-- Python str.capitalize: first char upper, rest lower. -/
def pyCapitalize (s : String) : String :=
  match s.data with
  | [] => ""
  | c :: rest => ⟨c.toUpper :: rest.map Char.toLower⟩

/-- The skip message of run_select_query in app.py. -/
def skip_message : String :=
  "Skipping execution: Query is not a valid SELECT statement or is unanswerable."

/-- Translation of run_select_query (app.py lines 88 to 99).  The database
collaborator db.run is a parameter; the second component of the result
records whether it was invoked.  none models db being None. -/
def run_select_query (db : Option (String → Except String String))
    (sql_query : String) : String × Bool :=
  match db with
  | some dbRun =>
    if sql_query = "" ∨ pyContains sql_query "Cannot answer" = true ∨
        pyContains sql_query "Error: SQL not generated" = true ∨
        ¬ pyStartsWith (pyUpper (pyStrip sql_query)) "SELECT" = true then
      (skip_message, false)
    else
      match dbRun (pyStrip sql_query) with
      | .ok rows => (rows, true)
      | .error e =>
        ("Error executing SELECT query: " ++ e ++ "\nAttempted Query: " ++ pyStrip sql_query,
         true)
  | none => ("Error: Database connection not available for query execution.", false)

/-- The simulated success message of run_simulated_dml_query in app.py. -/
def simulated_success_message (action : String) : String :=
  "Successfully (simulated) " ++ action ++
    " data. No actual changes were made to the database in this demo."

/-- Translation of run_simulated_dml_query (app.py lines 101 to 108).  The
function is pure: it takes no database collaborator at all, so it can not
mutate the database. -/
def run_simulated_dml_query (dml_sql : String) (action : String) : String :=
  if dml_sql = "" ∨ pyContains dml_sql "Error generating DML" = true ∨
      pyContains dml_sql "Command too vague" = true then
    "Error: Could not simulate " ++ action ++ " due to issues with the DML command."
  else if ¬ (pyStartsWith (pyUpper (pyStrip dml_sql)) "INSERT" = true ∨
             pyStartsWith (pyUpper (pyStrip dml_sql)) "DELETE" = true ∨
             pyStartsWith (pyUpper (pyStrip dml_sql)) "UPDATE" = true) then
    "Error: The provided command for " ++ action ++ " does not appear to be valid DML."
  else
    simulated_success_message action

/-- Database collaborator for get_schema: the outcome of the n-th call of
db.get_table_info, so that the number of collaborator invocations is
observable. -/
structure SchemaDb where
  table_info : Nat → Except String String
deriving Inhabited

/-- Translation of get_schema (app.py lines 82 to 86), instrumented with a
collaborator call counter: the input calls is the number of db.get_table_info
invocations made so far, the output pairs the returned text with the updated
counter.  none models db being None (connection unavailable). -/
def get_schema_call (db : Option SchemaDb) (calls : Nat) : String × Nat :=
  match db with
  | some conn =>
    match conn.table_info calls with
    | .ok info => (info, calls + 1)
    | .error e => ("Error getting schema: " ++ e, calls + 1)
  | none => ("Error: Database connection not available.", calls)

/-- Guidance JSON produced by the dml_guidance_chain, as read by app.py via
guidance.get: target_table defaults to Unknown, suggested_fields to []. -/
structure Guidance where
  target_table : String
  suggested_fields : List String
  guidance_text : String
  fields_template_text : Option String
  example_text : Option String
deriving DecidableEq, Repr

/-- Content of a chat message: app.py stores either a raw user string or an
assistant dict keyed by ai_response or error. -/
inductive MsgContent where
  | userText (t : String)
  | aiResponse (t : String)
  | errorText (t : String)
deriving DecidableEq, Repr

/-- One entry of st.session_state.messages. -/
structure ChatMsg where
  role : String
  content : MsgContent
deriving DecidableEq, Repr

/-- Shorthand for an assistant message carrying an ai_response dict. -/
def assistantMsg (t : String) : ChatMsg := ⟨"assistant", .aiResponse t⟩

/-- Shorthand for an assistant message carrying an error dict. -/
def assistantErr (t : String) : ChatMsg := ⟨"assistant", .errorText t⟩

/-- Shorthand for a user message. -/
def userMsg (t : String) : ChatMsg := ⟨"user", .userText t⟩

/-- The Streamlit session state of app.py that the dialogue controller
mutates.  current_action is the string tag stored in
st.session_state.current_action (none models Python None);
pending_dml_confirmation holds the action and sql keys of the
pending confirmation dict. -/
structure AppState where
  messages : List ChatMsg
  current_action : Option String
  dml_initial_description : String
  dml_form_inputs : List (String × String)
  dml_text_details : String
  dml_guidance_message : Option Guidance
  dml_input_method : Option String
  pending_dml_confirmation : Option (String × String)
deriving DecidableEq, Repr

/-- Session state right after initialization (app.py lines 352 to 366). -/
def initState : AppState :=
  { messages := [assistantMsg "Hello! Use the quick action buttons or ask a question below."]
    current_action := none
    dml_initial_description := ""
    dml_form_inputs := []
    dml_text_details := ""
    dml_guidance_message := none
    dml_input_method := none
    pending_dml_confirmation := none }

/-- Verb selection used all over app.py: add if the action tag contains the
substring add, else delete. -/
def actionVerbOf (a : String) : String :=
  if pyContains a "add" = true then "add" else "delete"

/-- Association list lookup with the falsy default of dict.get: missing keys
behave like the empty string. -/
def lookupField (m : List (String × String)) (f : String) : String :=
  match m with
  | [] => ""
  | (k, v) :: rest => if k = f then v else lookupField rest f

/-- Association list update preserving dict insertion order. -/
def setField (m : List (String × String)) (f v : String) : List (String × String) :=
  match m with
  | [] => [(f, v)]
  | (k, w) :: rest => if k = f then (k, v) :: rest else (k, w) :: setField rest f v

/-- Python any over the suggested fields: true when at least one field has a
truthy (non-empty) value in the form inputs. -/
def anyFieldFilled (m : List (String × String)) : List String → Bool
  | [] => false
  | f :: rest => (if lookupField m f = "" then false else true) || anyFieldFilled m rest

/-- Translation of app.py line 538: the chat input is disabled exactly when
current_action is truthy and either contains the substring dml or a DML
confirmation is pending. -/
def chat_input_disabled (s : AppState) : Bool :=
  match s.current_action with
  | none => false
  | some a => !decide (a = "") && (pyContains a "dml" || s.pending_dml_confirmation.isSome)

/-- The confirmation stage of the elif chain (app.py line 483) renders exactly
when no earlier DML stage matched current_action and a confirmation is
pending. -/
def confirmation_stage (s : AppState) : Bool :=
  (match s.current_action with
   | some a =>
     !decide (a = "add_data_initial_input" ∨ a = "delete_data_initial_input" ∨
              a = "awaiting_dml_input_method_add" ∨ a = "awaiting_dml_input_method_delete" ∨
              a = "awaiting_structured_dml_details_add" ∨
              a = "awaiting_structured_dml_details_delete")
   | none => true) && s.pending_dml_confirmation.isSome

/-- UI and collaborator events driving the session.  Widget edits
(setDescription, setFormField, setTextDetails) model the render-time binding
of text widgets to session state; guidanceResult, dmlResult, chatResult and
summarizeResult deliver the text the model collaborator returned for the
matching processing action; modelError models the except handlers at the end
of the processing block. -/
inductive UIEvent where
  | clickAdd
  | clickDelete
  | clickSummarize
  | setDescription (d : String)
  | getGuidance
  | cancelInitial
  | guidanceResult (g : Guidance)
  | chooseForm
  | chooseText
  | cancelMethod
  | renderNoGuidance
  | setFormField (f v : String)
  | formSubmit
  | setTextDetails (d : String)
  | textSubmit
  | goBack
  | dmlResult (txt : String)
  | confirmProceed
  | confirmCancel
  | chatSubmit (txt : String)
  | chatResult (txt : String)
  | summarizeResult (txt : String)
  | modelError (msg : String)
deriving DecidableEq, Repr

/-- Add Data quick action (app.py lines 331 to 338): resets the listed DML
fields but neither messages nor pending_dml_confirmation. -/
def applyClickAdd (s : AppState) : AppState :=
  { s with current_action := some "add_data_initial_input"
           dml_initial_description := ""
           dml_form_inputs := []
           dml_text_details := ""
           dml_guidance_message := none
           dml_input_method := none }

/-- Delete Data quick action (app.py lines 339 to 346). -/
def applyClickDelete (s : AppState) : AppState :=
  { s with current_action := some "delete_data_initial_input"
           dml_initial_description := ""
           dml_form_inputs := []
           dml_text_details := ""
           dml_guidance_message := none
           dml_input_method := none }

/-- Summarize Database quick action (app.py lines 347 to 349). -/
def applyClickSummarize (s : AppState) : AppState :=
  { s with current_action := some "summarize_db" }

/-- Description text area binding at the initial-input stage (app.py 374). -/
def applySetDescription (s : AppState) (d : String) : AppState :=
  match s.current_action with
  | some a =>
    if a = "add_data_initial_input" ∨ a = "delete_data_initial_input" then
      { s with dml_initial_description := d }
    else s
  | none => s

/-- Get Guidance button (app.py lines 380 to 384): advances only when the
stripped description is non-empty, otherwise shows st.warning and changes
nothing. -/
def applyGetGuidance (s : AppState) : AppState :=
  match s.current_action with
  | some a =>
    if a = "add_data_initial_input" ∨ a = "delete_data_initial_input" then
      if pyStrip s.dml_initial_description = "" then s
      else { s with current_action := some ("process_initial_dml_description_" ++ actionVerbOf a) }
    else s
  | none => s

/-- Cancel button at the initial-input stage (app.py lines 386 to 387): only
current_action is cleared. -/
def applyCancelInitial (s : AppState) : AppState :=
  match s.current_action with
  | some a =>
    if a = "add_data_initial_input" ∨ a = "delete_data_initial_input" then
      { s with current_action := none }
    else s
  | none => s

/-- The dml_guidance_chain returning parsed guidance JSON while
process_initial_dml_description is active (app.py lines 582 to 595). -/
def applyGuidanceResult (s : AppState) (g : Guidance) : AppState :=
  match s.current_action with
  | some a =>
    if pyStartsWith a "process_initial_dml_description_" = true then
      { s with dml_guidance_message := some g
               current_action := some ("awaiting_dml_input_method_" ++ actionVerbOf a) }
    else s
  | none => s

/-- Fill Form button (app.py lines 403 to 406): the button is disabled, hence
the event is a no-op, when target_table is Unknown or no fields were
suggested. -/
def applyChooseForm (s : AppState) : AppState :=
  match s.current_action, s.dml_guidance_message with
  | some a, some g =>
    if a = "awaiting_dml_input_method_add" ∨ a = "awaiting_dml_input_method_delete" then
      if g.target_table = "Unknown" ∨ g.suggested_fields = [] then s
      else { s with dml_input_method := some "form"
                    current_action := some ("awaiting_structured_dml_details_" ++ actionVerbOf a) }
    else s
  | _, _ => s

/-- Describe in Text button (app.py lines 408 to 411), never disabled. -/
def applyChooseText (s : AppState) : AppState :=
  match s.current_action, s.dml_guidance_message with
  | some a, some _ =>
    if a = "awaiting_dml_input_method_add" ∨ a = "awaiting_dml_input_method_delete" then
      { s with dml_input_method := some "text"
               current_action := some ("awaiting_structured_dml_details_" ++ actionVerbOf a) }
    else s
  | _, _ => s

/-- Cancel Operation button at the input-method stage (app.py lines 413 to
414): clears current_action and guidance, nothing else. -/
def applyCancelMethod (s : AppState) : AppState :=
  match s.current_action, s.dml_guidance_message with
  | some a, some _ =>
    if a = "awaiting_dml_input_method_add" ∨ a = "awaiting_dml_input_method_delete" then
      { s with current_action := none, dml_guidance_message := none }
    else s
  | _, _ => s

/-- Rendering the input-method stage with no guidance stored shows an error
and resets current_action (app.py lines 418 to 420). -/
def applyRenderNoGuidance (s : AppState) : AppState :=
  match s.current_action, s.dml_guidance_message with
  | some a, none =>
    if a = "awaiting_dml_input_method_add" ∨ a = "awaiting_dml_input_method_delete" then
      { s with current_action := none }
    else s
  | _, _ => s

/-- Form text input binding (app.py lines 439 to 444): one text_input per
suggested field writes into dml_form_inputs. -/
def applySetFormField (s : AppState) (f v : String) : AppState :=
  match s.current_action, s.dml_guidance_message, s.dml_input_method with
  | some a, some g, some m =>
    if (a = "awaiting_structured_dml_details_add" ∨ a = "awaiting_structured_dml_details_delete") ∧
        m = "form" ∧ f ∈ g.suggested_fields then
      { s with dml_form_inputs := setField s.dml_form_inputs f v }
    else s
  | _, _, _ => s

/-- Form submit button (app.py lines 445 to 453): the form only renders when
fields were suggested, and the submission advances only when at least one
field is filled, otherwise st.warning and no change. -/
def applyFormSubmit (s : AppState) : AppState :=
  match s.current_action, s.dml_guidance_message, s.dml_input_method with
  | some a, some g, some m =>
    if (a = "awaiting_structured_dml_details_add" ∨ a = "awaiting_structured_dml_details_delete") ∧
        m = "form" ∧ ¬ g.suggested_fields = [] then
      if anyFieldFilled s.dml_form_inputs g.suggested_fields = true then
        { s with current_action := some ("process_structured_dml_" ++ actionVerbOf a) }
      else s
    else s
  | _, _, _ => s

/-- Free text details area binding (app.py lines 460 to 463). -/
def applySetTextDetails (s : AppState) (d : String) : AppState :=
  match s.current_action, s.dml_guidance_message, s.dml_input_method with
  | some a, some _, some m =>
    if (a = "awaiting_structured_dml_details_add" ∨ a = "awaiting_structured_dml_details_delete") ∧
        m = "text" then
      { s with dml_text_details := d }
    else s
  | _, _, _ => s

/-- Generate Command from Text button (app.py lines 464 to 469): advances only
when the stripped details are non-empty, otherwise st.warning, no change. -/
def applyTextSubmit (s : AppState) : AppState :=
  match s.current_action, s.dml_guidance_message, s.dml_input_method with
  | some a, some _, some m =>
    if (a = "awaiting_structured_dml_details_add" ∨ a = "awaiting_structured_dml_details_delete") ∧
        m = "text" then
      if pyStrip s.dml_text_details = "" then s
      else { s with current_action := some ("process_structured_dml_" ++ actionVerbOf a) }
    else s
  | _, _, _ => s

/-- Go Back / Cancel Details Input button (app.py lines 473 to 479): returns
to the input-method stage, keeps guidance, clears form inputs and text
details. -/
def applyGoBack (s : AppState) : AppState :=
  match s.current_action, s.dml_guidance_message with
  | some a, some _ =>
    if a = "awaiting_structured_dml_details_add" ∨ a = "awaiting_structured_dml_details_delete" then
      { s with current_action := some ("awaiting_dml_input_method_" ++ actionVerbOf a)
               dml_form_inputs := []
               dml_text_details := "" }
    else s
  | _, _ => s

/-- The dml_generation_chain returning its text while process_structured_dml
is active (app.py lines 597 to 627): an Error generating DML prefix aborts to
Idle with an assistant message, any other text becomes the pending
confirmation (current_action is left for the confirmation UI to reset).  The
handler reaches the model call only when an input method was chosen, since
otherwise st.stop fires. -/
def applyDmlResult (s : AppState) (txt : String) : AppState :=
  match s.current_action, s.dml_input_method with
  | some a, some m =>
    if pyStartsWith a "process_structured_dml_" = true ∧ (m = "form" ∨ m = "text") then
      if pyStartsWith txt "Error generating DML:" = true then
        { s with messages := s.messages ++ [assistantMsg txt], current_action := none }
      else
        { s with pending_dml_confirmation := some (actionVerbOf a, txt) }
    else s
  | _, _ => s

/-- Proceed (Simulated) button (app.py lines 491 to 496): runs the simulated
execution, appends its result, clears confirmation and current_action. -/
def applyConfirmProceed (s : AppState) : AppState :=
  match s.pending_dml_confirmation with
  | some (av, dml_sql) =>
    if confirmation_stage s = true then
      { s with messages := s.messages ++ [assistantMsg (run_simulated_dml_query dml_sql av)]
               pending_dml_confirmation := none
               current_action := none }
    else s
  | none => s

/-- Cancel Operation button at the confirmation stage (app.py lines 497 to
501): appends a cancellation message, clears confirmation and current_action,
and touches nothing else (in particular not the guidance). -/
def applyConfirmCancel (s : AppState) : AppState :=
  match s.pending_dml_confirmation with
  | some (av, _) =>
    if confirmation_stage s = true then
      { s with messages := s.messages ++ [assistantMsg (pyCapitalize av ++ " operation cancelled.")]
               pending_dml_confirmation := none
               current_action := none }
    else s
  | none => s

/-- Chat submission (app.py lines 541 to 545): st.chat_input never fires when
disabled (and an inner guard re-checks), and delivers only non-empty text. -/
def applyChatSubmit (s : AppState) (txt : String) : AppState :=
  if txt = "" then s
  else if chat_input_disabled s = true then s
  else { s with messages := s.messages ++ [userMsg txt]
                current_action := some "process_chat_input" }

/-- The chat-intent pipeline finishing while process_chat_input is active
(app.py lines 553 to 580): one assistant message is appended, current_action
is reset. -/
def applyChatResult (s : AppState) (txt : String) : AppState :=
  if s.current_action = some "process_chat_input" then
    { s with messages := s.messages ++ [assistantMsg txt], current_action := none }
  else s

/-- The summary chain finishing while summarize_db is active (app.py lines
629 to 634). -/
def applySummarizeResult (s : AppState) (txt : String) : AppState :=
  if s.current_action = some "summarize_db" then
    { s with messages := s.messages ++ [assistantMsg ("**Database Summary:**\n\n" ++ txt)]
             current_action := none }
  else s

/-- One of the processing tags dispatched by the action block (app.py 548). -/
def processingTag (a : String) : Bool :=
  decide (a = "process_chat_input") ||
  pyStartsWith a "process_initial_dml_description_" ||
  pyStartsWith a "process_structured_dml_" ||
  decide (a = "summarize_db")

/-- The except handlers of the processing block (app.py lines 636 to 644):
any model or parse failure appends an error message and resets
current_action. -/
def applyModelError (s : AppState) (msg : String) : AppState :=
  match s.current_action with
  | some a =>
    if processingTag a = true then
      { s with messages := s.messages ++ [assistantErr msg], current_action := none }
    else s
  | none => s

/-- One step of the session: dispatch an event to its handler. -/
def step (s : AppState) : UIEvent → AppState
  | .clickAdd => applyClickAdd s
  | .clickDelete => applyClickDelete s
  | .clickSummarize => applyClickSummarize s
  | .setDescription d => applySetDescription s d
  | .getGuidance => applyGetGuidance s
  | .cancelInitial => applyCancelInitial s
  | .guidanceResult g => applyGuidanceResult s g
  | .chooseForm => applyChooseForm s
  | .chooseText => applyChooseText s
  | .cancelMethod => applyCancelMethod s
  | .renderNoGuidance => applyRenderNoGuidance s
  | .setFormField f v => applySetFormField s f v
  | .formSubmit => applyFormSubmit s
  | .setTextDetails d => applySetTextDetails s d
  | .textSubmit => applyTextSubmit s
  | .goBack => applyGoBack s
  | .dmlResult txt => applyDmlResult s txt
  | .confirmProceed => applyConfirmProceed s
  | .confirmCancel => applyConfirmCancel s
  | .chatSubmit txt => applyChatSubmit s txt
  | .chatResult txt => applyChatResult s txt
  | .summarizeResult txt => applySummarizeResult s txt
  | .modelError msg => applyModelError s msg

/-- Run a list of events from the initial session state. -/
def runEvents (es : List UIEvent) : AppState := es.foldl step initState

/-- A session state the app can actually be in. -/
def Reachable (s : AppState) : Prop := ∃ es, runEvents es = s


/-- Invariant stated by C1: whatever is pending was produced with a verb in
add or delete and a generated text that does not start with the refusal
sentinel. -/
def PendingOk (s : AppState) : Prop :=
  ∀ av q, s.pending_dml_confirmation = some (av, q) →
    pyStartsWith q "Error generating DML:" = false ∧ (av = "add" ∨ av = "delete")

/-- Guidance with a known target table, used by concrete executions. -/
def gArtist : Guidance :=
  ⟨"Artist", ["Name"], "Provide the artist name.", none, none⟩

/-- Guidance for a description too vague to identify a table. -/
def gUnknown : Guidance :=
  ⟨"Unknown", [], "Your description is a bit too general.", none, none⟩

/-- Concrete session state in the DML generation step of an Add flow with the
text input method, used to instantiate theorems with hypotheses. -/
def sC4 : AppState :=
  { messages := []
    current_action := some "process_structured_dml_add"
    dml_initial_description := "add artist Test"
    dml_form_inputs := []
    dml_text_details := "Name=Test"
    dml_guidance_message := some gArtist
    dml_input_method := some "text"
    pending_dml_confirmation := none }

/-- Schema collaborator whose table_info answer differs between the first and
every later call, making repeated querying observable. -/
def dbTwoSchemas : SchemaDb :=
  ⟨fun n => .ok (if n = 0 then "CREATE TABLE A (x INT)" else "CREATE TABLE B (y INT)")⟩

/-- Event trace driving one Add flow through the text input method up to a
generated statement that is not syntactically DML. -/
def traceC1 : List UIEvent :=
  [.clickAdd, .setDescription "add artist Test", .getGuidance, .guidanceResult gArtist,
   .chooseText, .setTextDetails "Name=Test", .textSubmit, .dmlResult "SELECT 1 FROM Artist"]

/-- Event trace of a full Add flow up to a pending INSERT confirmation. -/
def traceC5pre : List UIEvent :=
  [.clickAdd, .setDescription "add artist Test", .getGuidance, .guidanceResult gArtist,
   .chooseText, .setTextDetails "Name=Test", .textSubmit,
   .dmlResult "INSERT INTO Artist (Name) VALUES (1)"]

/-- The same flow with the confirmation then cancelled. -/
def traceC5 : List UIEvent := traceC5pre ++ [.confirmCancel]

/-- Event trace reaching the input-method stage with usable guidance. -/
def traceC7 : List UIEvent :=
  [.clickAdd, .setDescription "add artist Test", .getGuidance, .guidanceResult gArtist]

/-- Event trace reaching the input-method stage with Unknown guidance. -/
def traceC7u : List UIEvent :=
  [.clickAdd, .setDescription "add something", .getGuidance, .guidanceResult gUnknown]

/-- Event trace with an all-whitespace initial description. -/
def traceC8a : List UIEvent := [.clickAdd, .setDescription "   "]

/-- Event trace reaching the form details stage with no field filled in. -/
def traceC8b : List UIEvent :=
  [.clickAdd, .setDescription "add artist Test", .getGuidance, .guidanceResult gArtist,
   .chooseForm]

/-- Event trace reaching the text details stage with empty details. -/
def traceC8c : List UIEvent :=
  [.clickAdd, .setDescription "add artist Test", .getGuidance, .guidanceResult gArtist,
   .chooseText]

/-- Event trace reaching the text details stage with details typed in. -/
def traceC9 : List UIEvent :=
  [.clickAdd, .setDescription "add artist Test", .getGuidance, .guidanceResult gArtist,
   .chooseText, .setTextDetails "Name=Test"]

/-- Event trace parked in the guidance processing step, whose action tag
contains the substring dml. -/
def traceC10 : List UIEvent :=
  [.clickAdd, .setDescription "add artist Test", .getGuidance]

/-- Event trace reaching a state with a stale pending confirmation and no
current action: the Add quick action after traceC1 keeps the confirmation,
and the initial-input Cancel then clears only current_action. -/
def traceC10stale : List UIEvent := traceC1 ++ [.clickAdd, .cancelInitial]
/-- The verb selector only ever returns add or delete. -/
theorem actionVerbOf_cases (a : String) : actionVerbOf a = "add" ∨ actionVerbOf a = "delete" := by
  unfold actionVerbOf
  split
  · exact Or.inl rfl
  · exact Or.inr rfl

theorem pending_applyClickAdd (s : AppState) :
    (applyClickAdd s).pending_dml_confirmation = s.pending_dml_confirmation := rfl

theorem pending_applyClickDelete (s : AppState) :
    (applyClickDelete s).pending_dml_confirmation = s.pending_dml_confirmation := rfl

theorem pending_applyClickSummarize (s : AppState) :
    (applyClickSummarize s).pending_dml_confirmation = s.pending_dml_confirmation := rfl

theorem pending_applySetDescription (s : AppState) (d : String) :
    (applySetDescription s d).pending_dml_confirmation = s.pending_dml_confirmation := by
  unfold applySetDescription
  repeat' split
  all_goals rfl

theorem pending_applyGetGuidance (s : AppState) :
    (applyGetGuidance s).pending_dml_confirmation = s.pending_dml_confirmation := by
  unfold applyGetGuidance
  repeat' split
  all_goals rfl

theorem pending_applyCancelInitial (s : AppState) :
    (applyCancelInitial s).pending_dml_confirmation = s.pending_dml_confirmation := by
  unfold applyCancelInitial
  repeat' split
  all_goals rfl

theorem pending_applyGuidanceResult (s : AppState) (g : Guidance) :
    (applyGuidanceResult s g).pending_dml_confirmation = s.pending_dml_confirmation := by
  unfold applyGuidanceResult
  repeat' split
  all_goals rfl

theorem pending_applyChooseForm (s : AppState) :
    (applyChooseForm s).pending_dml_confirmation = s.pending_dml_confirmation := by
  unfold applyChooseForm
  repeat' split
  all_goals rfl

theorem pending_applyChooseText (s : AppState) :
    (applyChooseText s).pending_dml_confirmation = s.pending_dml_confirmation := by
  unfold applyChooseText
  repeat' split
  all_goals rfl

theorem pending_applyCancelMethod (s : AppState) :
    (applyCancelMethod s).pending_dml_confirmation = s.pending_dml_confirmation := by
  unfold applyCancelMethod
  repeat' split
  all_goals rfl

theorem pending_applyRenderNoGuidance (s : AppState) :
    (applyRenderNoGuidance s).pending_dml_confirmation = s.pending_dml_confirmation := by
  unfold applyRenderNoGuidance
  repeat' split
  all_goals rfl

theorem pending_applySetFormField (s : AppState) (f v : String) :
    (applySetFormField s f v).pending_dml_confirmation = s.pending_dml_confirmation := by
  unfold applySetFormField
  repeat' split
  all_goals rfl

theorem pending_applyFormSubmit (s : AppState) :
    (applyFormSubmit s).pending_dml_confirmation = s.pending_dml_confirmation := by
  unfold applyFormSubmit
  repeat' split
  all_goals rfl

theorem pending_applySetTextDetails (s : AppState) (d : String) :
    (applySetTextDetails s d).pending_dml_confirmation = s.pending_dml_confirmation := by
  unfold applySetTextDetails
  repeat' split
  all_goals rfl

theorem pending_applyTextSubmit (s : AppState) :
    (applyTextSubmit s).pending_dml_confirmation = s.pending_dml_confirmation := by
  unfold applyTextSubmit
  repeat' split
  all_goals rfl

theorem pending_applyGoBack (s : AppState) :
    (applyGoBack s).pending_dml_confirmation = s.pending_dml_confirmation := by
  unfold applyGoBack
  repeat' split
  all_goals rfl

theorem pending_applyChatSubmit (s : AppState) (txt : String) :
    (applyChatSubmit s txt).pending_dml_confirmation = s.pending_dml_confirmation := by
  unfold applyChatSubmit
  repeat' split
  all_goals rfl

theorem pending_applyChatResult (s : AppState) (txt : String) :
    (applyChatResult s txt).pending_dml_confirmation = s.pending_dml_confirmation := by
  unfold applyChatResult
  repeat' split
  all_goals rfl

theorem pending_applySummarizeResult (s : AppState) (txt : String) :
    (applySummarizeResult s txt).pending_dml_confirmation = s.pending_dml_confirmation := by
  unfold applySummarizeResult
  repeat' split
  all_goals rfl

theorem pending_applyModelError (s : AppState) (msg : String) :
    (applyModelError s msg).pending_dml_confirmation = s.pending_dml_confirmation := by
  unfold applyModelError
  repeat' split
  all_goals rfl

/-- The DML generation handler either leaves the pending confirmation alone or
fills it with a text the generator returned without the refusal prefix. -/
theorem pending_applyDmlResult (s : AppState) (txt : String) :
    (applyDmlResult s txt).pending_dml_confirmation = s.pending_dml_confirmation ∨
    ∃ a, s.current_action = some a ∧ pyStartsWith txt "Error generating DML:" = false ∧
      (applyDmlResult s txt).pending_dml_confirmation = some (actionVerbOf a, txt) := by
  unfold applyDmlResult
  cases hca : s.current_action with
  | none => exact Or.inl rfl
  | some a =>
    cases him : s.dml_input_method with
    | none => exact Or.inl rfl
    | some m =>
      dsimp only
      by_cases hcond : pyStartsWith a "process_structured_dml_" = true ∧ (m = "form" ∨ m = "text")
      · rw [if_pos hcond]
        by_cases herr : pyStartsWith txt "Error generating DML:" = true
        · rw [if_pos herr]
          exact Or.inl rfl
        · rw [if_neg herr]
          exact Or.inr ⟨a, rfl, Bool.eq_false_iff.mpr herr, rfl⟩
      · rw [if_neg hcond]
        exact Or.inl rfl

theorem pending_applyConfirmProceed (s : AppState) :
    (applyConfirmProceed s).pending_dml_confirmation = s.pending_dml_confirmation ∨
    (applyConfirmProceed s).pending_dml_confirmation = none := by
  unfold applyConfirmProceed
  repeat' split
  all_goals first
    | exact Or.inl rfl
    | exact Or.inr rfl

theorem pending_applyConfirmCancel (s : AppState) :
    (applyConfirmCancel s).pending_dml_confirmation = s.pending_dml_confirmation ∨
    (applyConfirmCancel s).pending_dml_confirmation = none := by
  unfold applyConfirmCancel
  repeat' split
  all_goals first
    | exact Or.inl rfl
    | exact Or.inr rfl

theorem pendingOk_step (s : AppState) (e : UIEvent) (h : PendingOk s) : PendingOk (step s e) := by
  have hpres : ∀ t : AppState,
      t.pending_dml_confirmation = s.pending_dml_confirmation → PendingOk t :=
    fun t ht av q hq => h av q (ht ▸ hq)
  have hnone : ∀ t : AppState, t.pending_dml_confirmation = none → PendingOk t :=
    fun t ht av q hq => Option.noConfusion (ht ▸ hq)
  cases e with
  | clickAdd => exact hpres _ (pending_applyClickAdd s)
  | clickDelete => exact hpres _ (pending_applyClickDelete s)
  | clickSummarize => exact hpres _ (pending_applyClickSummarize s)
  | setDescription d => exact hpres _ (pending_applySetDescription s d)
  | getGuidance => exact hpres _ (pending_applyGetGuidance s)
  | cancelInitial => exact hpres _ (pending_applyCancelInitial s)
  | guidanceResult g => exact hpres _ (pending_applyGuidanceResult s g)
  | chooseForm => exact hpres _ (pending_applyChooseForm s)
  | chooseText => exact hpres _ (pending_applyChooseText s)
  | cancelMethod => exact hpres _ (pending_applyCancelMethod s)
  | renderNoGuidance => exact hpres _ (pending_applyRenderNoGuidance s)
  | setFormField f v => exact hpres _ (pending_applySetFormField s f v)
  | formSubmit => exact hpres _ (pending_applyFormSubmit s)
  | setTextDetails d => exact hpres _ (pending_applySetTextDetails s d)
  | textSubmit => exact hpres _ (pending_applyTextSubmit s)
  | goBack => exact hpres _ (pending_applyGoBack s)
  | dmlResult txt =>
    rcases pending_applyDmlResult s txt with hp | ⟨a, hca, hf, hp⟩
    · exact hpres _ hp
    · intro av q hq
      simp only [step] at hq
      rw [hp] at hq
      injection hq with h1
      injection h1 with h2 h3
      subst h2
      subst h3
      exact ⟨hf, actionVerbOf_cases a⟩
  | confirmProceed =>
    rcases pending_applyConfirmProceed s with hp | hp
    · exact hpres _ hp
    · exact hnone _ hp
  | confirmCancel =>
    rcases pending_applyConfirmCancel s with hp | hp
    · exact hpres _ hp
    · exact hnone _ hp
  | chatSubmit txt => exact hpres _ (pending_applyChatSubmit s txt)
  | chatResult txt => exact hpres _ (pending_applyChatResult s txt)
  | summarizeResult txt => exact hpres _ (pending_applySummarizeResult s txt)
  | modelError msg => exact hpres _ (pending_applyModelError s msg)

theorem pendingOk_fold : ∀ (es : List UIEvent) (s : AppState),
    PendingOk s → PendingOk (es.foldl step s) := by
  intro es
  induction es with
  | nil => exact fun s h => h
  | cons e es ih => exact fun s h => ih (step s e) (pendingOk_step s e h)

theorem pendingOk_init : PendingOk initState :=
  fun _ _ hq => Option.noConfusion hq

theorem pendingOk_reachable (s : AppState) (hs : Reachable s) : PendingOk s := by
  obtain ⟨es, rfl⟩ := hs
  exact pendingOk_fold es initState pendingOk_init

/-- A prefix of a char list stays a prefix after appending on the right. -/
theorem listPre_append (p s t : List Char) (h : listPre p s = true) :
    listPre p (s ++ t) = true := by
  induction p generalizing s with
  | nil => rfl
  | cons a as ih =>
    cases s with
    | nil => exact Bool.noConfusion h
    | cons b bs =>
      simp only [listPre, List.cons_append, Bool.and_eq_true, decide_eq_true_eq] at h ⊢
      exact ⟨h.1, ih bs h.2⟩

/-- A string prefix survives appending further text on the right. -/
theorem pyStartsWith_append_left (s t pat : String) (h : pyStartsWith s pat = true) :
    pyStartsWith (s ++ t) pat = true := by
  unfold pyStartsWith at h ⊢
  have hd : (s ++ t).data = s.data ++ t.data := rfl
  rw [hd]
  exact listPre_append _ _ _ h

/-- C1 counterexample: after a full Add flow in which the generator returned
the text SELECT 1 FROM Artist, the pending confirmation holds a statement
that is syntactically none of INSERT, UPDATE, DELETE, so the per-action
syntactic check claimed by C1 does not happen before the confirmation is
populated; moreover firing the Add Data quick action afterwards starts a
fresh flow with the stale pending confirmation still non-empty, so it is not
cleared before a new DML cycle starts. -/
theorem C1_counterexample :
    (runEvents traceC1).pending_dml_confirmation = some ("add", "SELECT 1 FROM Artist") ∧
    pyStartsWith (pyUpper (pyStrip "SELECT 1 FROM Artist")) "INSERT" = false ∧
    pyStartsWith (pyUpper (pyStrip "SELECT 1 FROM Artist")) "UPDATE" = false ∧
    pyStartsWith (pyUpper (pyStrip "SELECT 1 FROM Artist")) "DELETE" = false ∧
    (step (runEvents traceC1) .clickAdd).current_action = some "add_data_initial_input" ∧
    (step (runEvents traceC1) .clickAdd).pending_dml_confirmation =
      some ("add", "SELECT 1 FROM Artist") := by
  refine ⟨by decide, by decide, by decide, by decide, by decide, by decide⟩

/-- C1 (amended): in every reachable session state, pendingConfirmation is
non-empty only after DmlGenerator-DML returned a text that does not start
with the refusal sentinel Error generating DML: (stored with the add or
delete verb of the flow; no syntactic INSERT/UPDATE/DELETE check happens at
that point), and the quick actions do not clear a pending confirmation: they
leave the field exactly as it was. -/
theorem C1_pending_confirmation_amended (s : AppState) (hs : Reachable s) :
    (∀ av q, s.pending_dml_confirmation = some (av, q) →
      pyStartsWith q "Error generating DML:" = false ∧ (av = "add" ∨ av = "delete")) ∧
    (step s .clickAdd).pending_dml_confirmation = s.pending_dml_confirmation ∧
    (step s .clickDelete).pending_dml_confirmation = s.pending_dml_confirmation :=
  ⟨pendingOk_reachable s hs, rfl, rfl⟩

/-- C1 witness: the amended invariant applied to the concrete reachable state
produced by traceC1. -/
theorem C1_pending_confirmation_amended_witness :
    pyStartsWith "SELECT 1 FROM Artist" "Error generating DML:" = false ∧
    ("add" = "add" ∨ "add" = "delete") :=
  (C1_pending_confirmation_amended (runEvents traceC1) ⟨traceC1, rfl⟩).1
    "add" "SELECT 1 FROM Artist" (by decide)

/-- C2: with a live database connection, every query that is empty, carries
one of the sentinels Cannot answer or Error: SQL not generated, or whose
stripped text does not start case-insensitively with SELECT, makes
run_select_query return the fixed skip message without invoking the database
collaborator. -/
theorem C2_select_guard (dbRun : String → Except String String) (sql_query : String)
    (h : sql_query = "" ∨ pyContains sql_query "Cannot answer" = true ∨
         pyContains sql_query "Error: SQL not generated" = true ∨
         pyStartsWith (pyUpper (pyStrip sql_query)) "SELECT" = false) :
    run_select_query (some dbRun) sql_query = (skip_message, false) := by
  unfold run_select_query
  dsimp only
  rw [if_pos]
  rcases h with h | h | h | h
  · exact Or.inl h
  · exact Or.inr (Or.inl h)
  · exact Or.inr (Or.inr (Or.inl h))
  · exact Or.inr (Or.inr (Or.inr (Bool.eq_false_iff.mp h)))

/-- C2 witness: a DROP statement is skipped and the collaborator is not
called, even though a collaborator that would answer is present. -/
theorem C2_select_guard_witness :
    run_select_query (some (fun _ => Except.ok "rows")) "DROP TABLE Artist" =
      (skip_message, false) :=
  C2_select_guard (fun _ => Except.ok "rows") "DROP TABLE Artist"
    (Or.inr (Or.inr (Or.inr (by decide))))

/-- C3 counterexample: a statement whose stripped text starts with INSERT but
contains the sentinel Command too vague is answered with the error message,
not the fixed simulated-success text, so the claimed implication from the
INSERT/DELETE/UPDATE prefix to simulated success is false. -/
theorem C3_counterexample :
    pyStartsWith (pyUpper (pyStrip "INSERT Command too vague")) "INSERT" = true ∧
    run_simulated_dml_query "INSERT Command too vague" "add" =
      "Error: Could not simulate add due to issues with the DML command." ∧
    ¬ run_simulated_dml_query "INSERT Command too vague" "add" =
        simulated_success_message "add" := by
  refine ⟨by decide, by decide, by decide⟩

/-- C3 (amended): for every SQL string that is non-empty, carries neither of
the failure sentinels Error generating DML and Command too vague, and whose
stripped text starts case-insensitively with INSERT, DELETE or UPDATE,
run_simulated_dml_query returns the fixed simulated-success text (the
function takes no database collaborator, so no mutation can occur); and for
every string whose stripped text starts with none of the three keywords it
returns an error string (a text starting with Error:). -/
theorem C3_simulate_amended (dml_sql action : String) :
    (¬ dml_sql = "" → pyContains dml_sql "Error generating DML" = false →
     pyContains dml_sql "Command too vague" = false →
     (pyStartsWith (pyUpper (pyStrip dml_sql)) "INSERT" = true ∨
      pyStartsWith (pyUpper (pyStrip dml_sql)) "DELETE" = true ∨
      pyStartsWith (pyUpper (pyStrip dml_sql)) "UPDATE" = true) →
     run_simulated_dml_query dml_sql action = simulated_success_message action) ∧
    (pyStartsWith (pyUpper (pyStrip dml_sql)) "INSERT" = false →
     pyStartsWith (pyUpper (pyStrip dml_sql)) "DELETE" = false →
     pyStartsWith (pyUpper (pyStrip dml_sql)) "UPDATE" = false →
     pyStartsWith (run_simulated_dml_query dml_sql action) "Error:" = true) := by
  constructor
  · intro h1 h2 h3 hdml
    unfold run_simulated_dml_query
    have hA : ¬ (dml_sql = "" ∨ pyContains dml_sql "Error generating DML" = true ∨
        pyContains dml_sql "Command too vague" = true) := by
      rintro (hc | hc | hc)
      · exact h1 hc
      · rw [h2] at hc
        exact Bool.false_ne_true hc
      · rw [h3] at hc
        exact Bool.false_ne_true hc
    rw [if_neg hA, if_neg (not_not_intro hdml)]
  · intro h1 h2 h3
    unfold run_simulated_dml_query
    by_cases hc : dml_sql = "" ∨ pyContains dml_sql "Error generating DML" = true ∨
        pyContains dml_sql "Command too vague" = true
    · rw [if_pos hc]
      exact pyStartsWith_append_left _ _ _ (pyStartsWith_append_left _ _ _ (by decide))
    · rw [if_neg hc, if_pos]
      · exact pyStartsWith_append_left _ _ _ (pyStartsWith_append_left _ _ _ (by decide))
      · rintro (hd | hd | hd)
        · rw [h1] at hd
          exact Bool.false_ne_true hd
        · rw [h2] at hd
          exact Bool.false_ne_true hd
        · rw [h3] at hd
          exact Bool.false_ne_true hd

/-- C3 witness: a well-formed INSERT simulates successfully, and a non-DML
text gets an error string. -/
theorem C3_simulate_amended_witness :
    run_simulated_dml_query "INSERT INTO Artist (Name) VALUES (1)" "add" =
      simulated_success_message "add" ∧
    pyStartsWith (run_simulated_dml_query "hello there" "add") "Error:" = true := by
  constructor
  · exact (C3_simulate_amended "INSERT INTO Artist (Name) VALUES (1)" "add").1
      (by decide) (by decide) (by decide) (Or.inl (by decide))
  · exact (C3_simulate_amended "hello there" "add").2 (by decide) (by decide) (by decide)

/-- Helper: a processing tag of the DML generation step is none of the six
rendered stage tags of the elif chain. -/
theorem processStructured_not_stage (a : String)
    (h : pyStartsWith a "process_structured_dml_" = true) :
    decide (a = "add_data_initial_input" ∨ a = "delete_data_initial_input" ∨
      a = "awaiting_dml_input_method_add" ∨ a = "awaiting_dml_input_method_delete" ∨
      a = "awaiting_structured_dml_details_add" ∨
      a = "awaiting_structured_dml_details_delete") = false := by
  apply decide_eq_false
  rintro (rfl | rfl | rfl | rfl | rfl | rfl) <;> exact absurd h (by decide)

/-- C4: in the DML generation step, a generator text starting with the
sentinel Error generating DML: is appended as an assistant message and the
controller returns to Idle with the pending confirmation still empty; any
other text becomes pendingConfirmation with the flow verb, and the
confirmation stage renders. -/
theorem C4_dml_generation_outcome (s : AppState) (a txt : String)
    (hca : s.current_action = some a)
    (hpre : pyStartsWith a "process_structured_dml_" = true)
    (hm : s.dml_input_method = some "form" ∨ s.dml_input_method = some "text")
    (hp : s.pending_dml_confirmation = none) :
    (pyStartsWith txt "Error generating DML:" = true →
      step s (.dmlResult txt) =
        { s with messages := s.messages ++ [assistantMsg txt], current_action := none } ∧
      (step s (.dmlResult txt)).pending_dml_confirmation = none) ∧
    (pyStartsWith txt "Error generating DML:" = false →
      step s (.dmlResult txt) =
        { s with pending_dml_confirmation := some (actionVerbOf a, txt) } ∧
      confirmation_stage (step s (.dmlResult txt)) = true) := by
  obtain ⟨m, him, hm2⟩ : ∃ m, s.dml_input_method = some m ∧ (m = "form" ∨ m = "text") := by
    rcases hm with h | h
    · exact ⟨"form", h, Or.inl rfl⟩
    · exact ⟨"text", h, Or.inr rfl⟩
  have hstep : step s (.dmlResult txt) =
      if pyStartsWith txt "Error generating DML:" = true then
        { s with messages := s.messages ++ [assistantMsg txt], current_action := none }
      else { s with pending_dml_confirmation := some (actionVerbOf a, txt) } := by
    simp only [step]
    unfold applyDmlResult
    rw [hca, him]
    dsimp only
    rw [if_pos ⟨hpre, hm2⟩]
  constructor
  · intro herr
    rw [hstep, if_pos herr]
    exact ⟨rfl, hp⟩
  · intro hok
    have hok' : ¬ pyStartsWith txt "Error generating DML:" = true := by
      rw [hok]
      exact Bool.false_ne_true
    rw [hstep, if_neg hok']
    refine ⟨rfl, ?_⟩
    unfold confirmation_stage
    dsimp only
    rw [hca]
    dsimp only
    rw [processStructured_not_stage a hpre]
    rfl

/-- C4 witness: both outcomes of the DML generation step at a concrete
session state. -/
theorem C4_dml_generation_outcome_witness :
    step sC4 (.dmlResult "Error generating DML: Deletion criteria are too vague.") =
      { sC4 with
        messages := sC4.messages ++
          [assistantMsg "Error generating DML: Deletion criteria are too vague."],
        current_action := none } ∧
    step sC4 (.dmlResult "INSERT INTO Artist (Name) VALUES (1)") =
      { sC4 with
        pending_dml_confirmation := some ("add", "INSERT INTO Artist (Name) VALUES (1)") } := by
  constructor
  · exact ((C4_dml_generation_outcome sC4 "process_structured_dml_add" _ rfl (by decide)
      (Or.inr rfl) rfl).1 (by decide)).1
  · have h := ((C4_dml_generation_outcome sC4 "process_structured_dml_add"
      "INSERT INTO Artist (Name) VALUES (1)" rfl (by decide) (Or.inr rfl) rfl).2 (by decide)).1
    rw [h]
    decide

/-- C5 counterexample: cancelling from the confirmation stage returns to
Idle and clears the pending confirmation, but the guidance is NOT cleared,
so the claim that cancel always clears both fields is false. -/
theorem C5_counterexample :
    (runEvents traceC5).current_action = none ∧
    (runEvents traceC5).pending_dml_confirmation = none ∧
    ¬ (runEvents traceC5).dml_guidance_message = none := by
  refine ⟨by decide, by decide, by decide⟩

/-- C5 (amended): every cancel event returns the controller to Idle
(current action cleared), reproducibly; the initial-input cancel clears
nothing else, the input-method cancel additionally clears guidance (but not
a stale pending confirmation), and the confirmation cancel additionally
clears the pending confirmation and appends a cancellation message, while
leaving guidance untouched. -/
theorem C5_cancel_amended (s : AppState) :
    (∀ a, s.current_action = some a →
      (a = "add_data_initial_input" ∨ a = "delete_data_initial_input") →
      step s .cancelInitial = { s with current_action := none }) ∧
    (∀ a g, s.current_action = some a →
      (a = "awaiting_dml_input_method_add" ∨ a = "awaiting_dml_input_method_delete") →
      s.dml_guidance_message = some g →
      step s .cancelMethod = { s with current_action := none, dml_guidance_message := none }) ∧
    (∀ av q, s.pending_dml_confirmation = some (av, q) → confirmation_stage s = true →
      step s .confirmCancel =
        { s with
          messages := s.messages ++ [assistantMsg (pyCapitalize av ++ " operation cancelled.")],
          pending_dml_confirmation := none,
          current_action := none } ∧
      (step s .confirmCancel).dml_guidance_message = s.dml_guidance_message) := by
  refine ⟨?_, ?_, ?_⟩
  · intro a hca hst
    simp only [step]
    unfold applyCancelInitial
    rw [hca]
    dsimp only
    rw [if_pos hst]
  · intro a g hca hst hg
    simp only [step]
    unfold applyCancelMethod
    rw [hca, hg]
    dsimp only
    rw [if_pos hst]
  · intro av q hp hcs
    have h : step s .confirmCancel =
        { s with
          messages := s.messages ++ [assistantMsg (pyCapitalize av ++ " operation cancelled.")],
          pending_dml_confirmation := none,
          current_action := none } := by
      simp only [step]
      unfold applyConfirmCancel
      rw [hp]
      dsimp only
      rw [if_pos hcs]
    exact ⟨h, by rw [h]⟩

/-- C5 witness: the confirmation-stage cancel applied to the concrete state
after traceC5pre. -/
theorem C5_cancel_amended_witness :
    (step (runEvents traceC5pre) .confirmCancel).current_action = none ∧
    (step (runEvents traceC5pre) .confirmCancel).dml_guidance_message =
      (runEvents traceC5pre).dml_guidance_message := by
  have h := (C5_cancel_amended (runEvents traceC5pre)).2.2 "add"
    "INSERT INTO Artist (Name) VALUES (1)" (by decide) (by decide)
  exact ⟨by rw [h.1], h.2⟩

/-- C6 counterexample: get_schema is not memoized; two successive calls both
query the collaborator (the call counter reaches 2) and can return different
schema texts. -/
theorem C6_counterexample :
    (get_schema_call (some dbTwoSchemas) 0).1 = "CREATE TABLE A (x INT)" ∧
    (get_schema_call (some dbTwoSchemas) 0).2 = 1 ∧
    (get_schema_call (some dbTwoSchemas) 1).1 = "CREATE TABLE B (y INT)" ∧
    (get_schema_call (some dbTwoSchemas) 1).2 = 2 ∧
    ¬ (get_schema_call (some dbTwoSchemas) 1).1 = (get_schema_call (some dbTwoSchemas) 0).1 := by
  refine ⟨by decide, by decide, by decide, by decide, by decide⟩

/-- C6 (amended): get_schema never throws; with no connection it returns the
fixed sentinel without touching the collaborator, and with a connection each
call queries db.get_table_info exactly once (no memoization), returning the
schema text on success and an error-describing string on an exception. -/
theorem C6_get_schema_amended (db : Option SchemaDb) (calls : Nat) :
    (db = none → get_schema_call db calls = ("Error: Database connection not available.", calls)) ∧
    (∀ conn, db = some conn →
      (∀ info, conn.table_info calls = .ok info →
        get_schema_call db calls = (info, calls + 1)) ∧
      (∀ e, conn.table_info calls = .error e →
        get_schema_call db calls = ("Error getting schema: " ++ e, calls + 1))) := by
  constructor
  · intro h
    rw [h]
    exact rfl
  · intro conn hdb
    constructor
    · intro info hok
      rw [hdb]
      unfold get_schema_call
      dsimp only
      rw [hok]
    · intro e herr
      rw [hdb]
      unfold get_schema_call
      dsimp only
      rw [herr]

/-- C6 witness: the amended contract at a missing connection and at a
concrete collaborator. -/
theorem C6_get_schema_amended_witness :
    get_schema_call (none : Option SchemaDb) 5 = ("Error: Database connection not available.", 5) ∧
    get_schema_call (some dbTwoSchemas) 0 = ("CREATE TABLE A (x INT)", 1) := by
  constructor
  · exact (C6_get_schema_amended none 5).1 rfl
  · exact ((C6_get_schema_amended (some dbTwoSchemas) 0).2 dbTwoSchemas rfl).1
      "CREATE TABLE A (x INT)" rfl

/-- C7: at the input-method stage, choosing Form is a no-op whenever
target_table is Unknown or no fields were suggested, and otherwise advances
to the details stage with method form; choosing Text always advances with
method text. -/
theorem C7_input_method_guard (s : AppState) (a : String) (g : Guidance)
    (hca : s.current_action = some a)
    (hst : a = "awaiting_dml_input_method_add" ∨ a = "awaiting_dml_input_method_delete")
    (hg : s.dml_guidance_message = some g) :
    (g.target_table = "Unknown" ∨ g.suggested_fields = [] → step s .chooseForm = s) ∧
    (¬ g.target_table = "Unknown" → ¬ g.suggested_fields = [] →
      step s .chooseForm =
        { s with
          dml_input_method := some "form",
          current_action := some ("awaiting_structured_dml_details_" ++ actionVerbOf a) }) ∧
    step s .chooseText =
      { s with
        dml_input_method := some "text",
        current_action := some ("awaiting_structured_dml_details_" ++ actionVerbOf a) } := by
  refine ⟨?_, ?_, ?_⟩
  · intro hdis
    simp only [step]
    unfold applyChooseForm
    rw [hca, hg]
    dsimp only
    rw [if_pos hst, if_pos hdis]
  · intro h1 h2
    simp only [step]
    unfold applyChooseForm
    rw [hca, hg]
    dsimp only
    rw [if_pos hst, if_neg]
    rintro (hc | hc)
    · exact h1 hc
    · exact h2 hc
  · simp only [step]
    unfold applyChooseText
    rw [hca, hg]
    dsimp only
    rw [if_pos hst]

/-- C7 witness: Form is rejected under Unknown guidance and accepted under
usable guidance; Text is accepted. -/
theorem C7_input_method_guard_witness :
    step (runEvents traceC7u) .chooseForm = runEvents traceC7u ∧
    (step (runEvents traceC7) .chooseForm).dml_input_method = some "form" ∧
    (step (runEvents traceC7) .chooseText).dml_input_method = some "text" := by
  refine ⟨?_, ?_, ?_⟩
  · exact (C7_input_method_guard (runEvents traceC7u) "awaiting_dml_input_method_add" gUnknown
      (by decide) (Or.inl rfl) (by decide)).1 (Or.inl rfl)
  · have h := (C7_input_method_guard (runEvents traceC7) "awaiting_dml_input_method_add" gArtist
      (by decide) (Or.inl rfl) (by decide)).2.1 (by decide) (by decide)
    rw [h]
  · have h := (C7_input_method_guard (runEvents traceC7) "awaiting_dml_input_method_add" gArtist
      (by decide) (Or.inl rfl) (by decide)).2.2
    rw [h]

/-- Helper: if every suggested field looks up empty, the any check of the
form submission is false. -/
theorem anyFieldFilled_eq_false (m : List (String × String)) (fs : List String)
    (h : ∀ f, f ∈ fs → lookupField m f = "") : anyFieldFilled m fs = false := by
  induction fs with
  | nil => rfl
  | cons f fs ih =>
    simp only [anyFieldFilled]
    rw [if_pos (h f (List.mem_cons_self f fs)),
      ih (fun x hx => h x (List.mem_cons_of_mem f hx))]
    rfl

/-- C8: an all-whitespace initial description, a form submission with every
suggested field empty, and an empty free-text details submission are each
rejected with no state change at all: same state, hence no transition, no
session field change and nothing appended to the conversation log. -/
theorem C8_empty_submission_noop (s : AppState) (a : String) :
    (s.current_action = some a →
      (a = "add_data_initial_input" ∨ a = "delete_data_initial_input") →
      pyStrip s.dml_initial_description = "" →
      step s .getGuidance = s) ∧
    (∀ g, s.current_action = some a →
      (a = "awaiting_structured_dml_details_add" ∨ a = "awaiting_structured_dml_details_delete") →
      s.dml_guidance_message = some g → s.dml_input_method = some "form" →
      (∀ f, f ∈ g.suggested_fields → lookupField s.dml_form_inputs f = "") →
      step s .formSubmit = s) ∧
    (∀ g, s.current_action = some a →
      (a = "awaiting_structured_dml_details_add" ∨ a = "awaiting_structured_dml_details_delete") →
      s.dml_guidance_message = some g → s.dml_input_method = some "text" →
      pyStrip s.dml_text_details = "" →
      step s .textSubmit = s) := by
  refine ⟨?_, ?_, ?_⟩
  · intro hca hst hempty
    simp only [step]
    unfold applyGetGuidance
    rw [hca]
    dsimp only
    rw [if_pos hst, if_pos hempty]
  · intro g hca hst hg him hfields
    simp only [step]
    unfold applyFormSubmit
    rw [hca, hg, him]
    dsimp only
    by_cases hfe : g.suggested_fields = []
    · rw [if_neg]
      rintro ⟨h1, h2, h3⟩
      exact h3 hfe
    · rw [if_pos ⟨hst, rfl, hfe⟩, if_neg]
      rw [anyFieldFilled_eq_false s.dml_form_inputs g.suggested_fields hfields]
      exact Bool.false_ne_true
  · intro g hca hst hg him hempty
    simp only [step]
    unfold applyTextSubmit
    rw [hca, hg, him]
    dsimp only
    rw [if_pos ⟨hst, rfl⟩, if_pos hempty]

/-- C8 witness: the three rejections at concrete states. -/
theorem C8_empty_submission_noop_witness :
    step (runEvents traceC8a) .getGuidance = runEvents traceC8a ∧
    step (runEvents traceC8b) .formSubmit = runEvents traceC8b ∧
    step (runEvents traceC8c) .textSubmit = runEvents traceC8c := by
  refine ⟨?_, ?_, ?_⟩
  · exact (C8_empty_submission_noop (runEvents traceC8a) "add_data_initial_input").1
      (by decide) (Or.inl rfl) (by decide)
  · exact (C8_empty_submission_noop (runEvents traceC8b) "awaiting_structured_dml_details_add").2.1
      gArtist (by decide) (Or.inl rfl) (by decide) (by decide)
      (by
        intro f hf
        simp only [gArtist, List.mem_singleton] at hf
        subst hf
        decide)
  · exact (C8_empty_submission_noop (runEvents traceC8c) "awaiting_structured_dml_details_add").2.2
      gArtist (by decide) (Or.inl rfl) (by decide) (by decide) (by decide)

/-- C9: Go Back from the details stage returns to the input-method stage,
clears the collected form values and the free-text details, and leaves the
guidance and the conversation log unchanged. -/
theorem C9_go_back_frame (s : AppState) (a : String) (g : Guidance)
    (hca : s.current_action = some a)
    (hst : a = "awaiting_structured_dml_details_add" ∨ a = "awaiting_structured_dml_details_delete")
    (hg : s.dml_guidance_message = some g) :
    step s .goBack =
      { s with
        current_action := some ("awaiting_dml_input_method_" ++ actionVerbOf a),
        dml_form_inputs := [],
        dml_text_details := "" } ∧
    (step s .goBack).dml_guidance_message = s.dml_guidance_message ∧
    (step s .goBack).messages = s.messages := by
  have h : step s .goBack =
      { s with
        current_action := some ("awaiting_dml_input_method_" ++ actionVerbOf a),
        dml_form_inputs := [],
        dml_text_details := "" } := by
    simp only [step]
    unfold applyGoBack
    rw [hca, hg]
    dsimp only
    rw [if_pos hst]
  exact ⟨h, by rw [h], by rw [h]⟩

/-- C9 witness: Go Back applied to the concrete state after traceC9. -/
theorem C9_go_back_frame_witness :
    (step (runEvents traceC9) .goBack).current_action = some "awaiting_dml_input_method_add" ∧
    (step (runEvents traceC9) .goBack).dml_text_details = "" ∧
    (step (runEvents traceC9) .goBack).dml_guidance_message =
      (runEvents traceC9).dml_guidance_message := by
  have h := C9_go_back_frame (runEvents traceC9) "awaiting_structured_dml_details_add" gArtist
    (by decide) (Or.inl rfl) (by decide)
  refine ⟨?_, ?_, h.2.1⟩
  · rw [h.1]
    decide
  · rw [h.1]


/-- C10 counterexample: with the Add flow active in its initial-input stage
the chat input is enabled and a chat submission is processed (the action tag
add_data_initial_input does not contain the substring dml); and a reachable
state exists whose pending confirmation is non-empty while the chat input is
enabled because current_action is cleared. -/
theorem C10_counterexample :
    (runEvents [UIEvent.clickAdd]).current_action = some "add_data_initial_input" ∧
    chat_input_disabled (runEvents [UIEvent.clickAdd]) = false ∧
    (step (runEvents [UIEvent.clickAdd]) (.chatSubmit "list albums")).current_action =
      some "process_chat_input" ∧
    (step (runEvents [UIEvent.clickAdd]) (.chatSubmit "list albums")).messages =
      (runEvents [UIEvent.clickAdd]).messages ++ [userMsg "list albums"] ∧
    ¬ (runEvents traceC10stale).pending_dml_confirmation = none ∧
    (runEvents traceC10stale).current_action = none ∧
    chat_input_disabled (runEvents traceC10stale) = false := by
  refine ⟨by decide, by decide, by decide, by decide, by decide, by decide, by decide⟩

/-- C10 (amended): the chat input is disabled exactly when current_action is
a non-empty tag that contains the substring dml or coexists with a pending
confirmation; while disabled, a chat submission is a no-op, so no chat turn
can run.  With no current action the chat input is enabled even if a stale
pending confirmation exists, and the initial-input stage tags do not contain
dml, so chat stays enabled there. -/
theorem C10_chat_gate_amended (s : AppState) :
    (∀ a, s.current_action = some a → pyContains a "dml" = true →
      chat_input_disabled s = true) ∧
    (∀ a, s.current_action = some a → ¬ a = "" → ¬ s.pending_dml_confirmation = none →
      chat_input_disabled s = true) ∧
    (s.current_action = none → chat_input_disabled s = false) ∧
    (∀ txt, chat_input_disabled s = true → step s (.chatSubmit txt) = s) := by
  refine ⟨?_, ?_, ?_, ?_⟩
  · intro a hca hdml
    have hne : ¬ a = "" := by
      rintro rfl
      exact absurd hdml (by decide)
    unfold chat_input_disabled
    rw [hca]
    dsimp only
    rw [decide_eq_false hne, hdml]
    rfl
  · intro a hca hne hpend
    obtain ⟨p, hp⟩ := Option.ne_none_iff_exists.mp hpend
    unfold chat_input_disabled
    rw [hca]
    dsimp only
    rw [decide_eq_false hne, ← hp]
    dsimp only [Option.isSome]
    rw [Bool.or_true]
    rfl
  · intro hca
    unfold chat_input_disabled
    rw [hca]
  · intro txt hdis
    simp only [step]
    unfold applyChatSubmit
    by_cases htxt : txt = ""
    · rw [if_pos htxt]
    · rw [if_neg htxt, if_pos hdis]

/-- C10 witness: while the guidance model call is being processed the chat
input is disabled and a chat submission changes nothing. -/
theorem C10_chat_gate_amended_witness :
    chat_input_disabled (runEvents traceC10) = true ∧
    step (runEvents traceC10) (.chatSubmit "list albums") = runEvents traceC10 := by
  have h1 := (C10_chat_gate_amended (runEvents traceC10)).1
    "process_initial_dml_description_add" (by decide) (by decide)
  exact ⟨h1, (C10_chat_gate_amended (runEvents traceC10)).2.2.2 "list albums" h1⟩
